import Mathlib

/-!
# Verification of the loan-repayment calculator (src/ts/script.ts)

This file embeds the validation-and-calculation routine of the calculator
(`amountCondition`, `runValidation`, `rightTruncate`, `calculate`) and proves
the spec's claims about it.

Modelling decisions:
* Form-field contents are the raw strings the functions read via `.value`.
* JavaScript numbers are modelled exactly, in the fragment the program can
  reach: a value is either NaN or a finite rational (`JNum`).  Binary64
  rounding is not modelled; all arithmetic is exact, matching the spec's
  "in pence, to avoid floating-point currency error" reading.  Infinite
  values never arise in this program: the parsers return finite values or
  NaN, and the only division/remainder whose divisor can be 0 already has a
  NaN dividend there, so the ±Infinity results of JS division by zero are
  unreachable and the embedding collapses that case to NaN.
* `parseInt` / `parseFloat` are modelled from their standard semantics on
  the decimal (and, for `parseInt`, hexadecimal-prefix) fragment: leading
  whitespace skipped, optional sign, digits up to the first non-digit,
  NaN (`none`) when no digits are found.  `parseFloat`'s `Infinity` literal
  is not modelled; it cannot pass the `parseInt`-based validation and so
  never reaches a `parseFloat` call in `calculate`.
* The error elements of the page are modelled by the observable effect
  `calculate` has on them: untouched, cleared (class `d-none` added), or
  showing a message.
-/

attribute [local semireducible] Rat.mul Rat.inv Rat.add Rat.sub

/-- Whitespace characters skipped by the JS numeric parsers before the number. -/
def isJsSpace (c : Char) : Bool :=
  c = ' ' || c = '\t' || c = '\n' || c = '\r' || c = '\x0b' || c = '\x0c'

/-- The numeric value of a decimal digit character. -/
def digitVal (c : Char) : Nat := c.toNat - '0'.toNat

/-- Value of a run of decimal digits, most significant first. -/
def digitsToNat (ds : List Char) : Nat :=
  ds.foldl (fun acc c => 10 * acc + digitVal c) 0

/-- Hexadecimal digit characters (for parseInt's 0x prefix handling). -/
def isHexDigitChar (c : Char) : Bool :=
  c.isDigit || ('a' ≤ c && c ≤ 'f') || ('A' ≤ c && c ≤ 'F')

/-- The numeric value of a hexadecimal digit character. -/
def hexDigitVal (c : Char) : Nat :=
  if c.isDigit then digitVal c
  else if 'a' ≤ c && c ≤ 'f' then c.toNat - 'a'.toNat + 10
  else c.toNat - 'A'.toNat + 10

/-- Value of a run of hexadecimal digits, most significant first. -/
def hexDigitsToNat (ds : List Char) : Nat :=
  ds.foldl (fun acc c => 16 * acc + hexDigitVal c) 0

/-- Optional leading sign: returns (isNegative, rest). -/
def readSign : List Char → Bool × List Char
  | '-' :: rest => (true, rest)
  | '+' :: rest => (false, rest)
  | cs => (false, cs)

/-- The prelude both JS parsers share: skip leading whitespace, then read an
optional sign. -/
def signAndRest (s : String) : Bool × List Char :=
  readSign (s.toList.dropWhile isJsSpace)

/-- Model of JavaScript `parseInt(string)` (radix auto-detected, so decimal,
or hexadecimal after a `0x`/`0X` prefix): skip leading whitespace, read an
optional sign, then the longest run of digits; `none` (NaN) when that run is
empty.  The result is idealised as an exact integer. -/
def jsParseInt (s : String) : Option Int :=
  let sr := signAndRest s
  let hex : Bool :=
    match sr.2 with
    | c0 :: c1 :: _ => c0 = '0' && (c1 = 'x' || c1 = 'X')
    | _ => false
  let body := if hex then sr.2.drop 2 else sr.2
  let ds := if hex then body.takeWhile isHexDigitChar else body.takeWhile Char.isDigit
  if ds.isEmpty then none
  else
    let n : Nat := if hex then hexDigitsToNat ds else digitsToNat ds
    some (if sr.1 then -(n : Int) else (n : Int))

/-- Model of JavaScript `parseFloat(string)`: skip leading whitespace, read an
optional sign, integer digits, an optional fraction after `.`, and an optional
exponent `e`/`E` with optional sign and digits (ignored when the exponent has
no digits); `none` (NaN) when neither integer nor fraction digits are found.
The value is the exact rational the digits denote. -/
def jsParseFloat (s : String) : Option ℚ :=
  let sr := signAndRest s
  let intDs := sr.2.takeWhile Char.isDigit
  let rest1 := sr.2.dropWhile Char.isDigit
  let fracDs :=
    match rest1 with
    | '.' :: r => r.takeWhile Char.isDigit
    | _ => []
  let rest2 :=
    match rest1 with
    | '.' :: r => r.dropWhile Char.isDigit
    | _ => rest1
  if intDs.isEmpty && fracDs.isEmpty then none
  else
    let mag : ℚ := (digitsToNat intDs : ℚ) + (digitsToNat fracDs : ℚ) / ((10 : ℚ) ^ fracDs.length)
    let expFactor : ℚ :=
      match rest2 with
      | e :: r =>
        if e = 'e' || e = 'E' then
          let esr := readSign r
          let eds := esr.2.takeWhile Char.isDigit
          if eds.isEmpty then 1
          else if esr.1 then 1 / ((10 : ℚ) ^ digitsToNat eds)
          else (10 : ℚ) ^ digitsToNat eds
        else 1
      | [] => 1
    some ((if sr.1 then (-1 : ℚ) else 1) * (mag * expFactor))

/-- A JavaScript number in the fragment this program reaches: NaN or a finite
exact rational (see the header comment for why ±Infinity is not needed). -/
inductive JNum where
  | nan : JNum
  | num (q : ℚ) : JNum
deriving DecidableEq

/-- JS addition; NaN-propagating. -/
def jadd : JNum → JNum → JNum
  | .num a, .num b => .num (a + b)
  | _, _ => .nan

/-- JS subtraction; NaN-propagating. -/
def jsub : JNum → JNum → JNum
  | .num a, .num b => .num (a - b)
  | _, _ => .nan

/-- JS multiplication; NaN-propagating. -/
def jmul : JNum → JNum → JNum
  | .num a, .num b => .num (a * b)
  | _, _ => .nan

/-- Truncation toward zero, the rounding JS applies inside the remainder
operation. -/
def jtrunc (q : ℚ) : Int := if 0 ≤ q then ⌊q⌋ else ⌈q⌉

/-- JS remainder `a % b`: NaN when either operand is NaN or the divisor is 0;
otherwise `a - b * trunc(a / b)` (sign follows the dividend). -/
def jmod : JNum → JNum → JNum
  | .num a, .num b => if b = 0 then .nan else .num (a - b * (jtrunc (a / b) : ℚ))
  | _, _ => .nan

/-- JS division: NaN when either operand is NaN.  A zero divisor with a
finite dividend would give ±Infinity in JS; in this program the divisor is 0
only when the dividend is already NaN, so that case is unreachable and is
collapsed to NaN here. -/
def jdiv : JNum → JNum → JNum
  | .num a, .num b => if b = 0 then .nan else .num (a / b)
  | _, _ => .nan

/-- `Math.ceil`; NaN-propagating. -/
def jceil : JNum → JNum
  | .num a => .num ((⌈a⌉ : ℤ) : ℚ)
  | .nan => .nan

/-- JS comparison `a > c`: false when `a` is NaN. -/
def jgt : JNum → ℚ → Bool
  | .num a, c => decide (c < a)
  | .nan, _ => false

/-- ECMAScript exponential notation for a positive integer whose magnitude is
at least 10^21: the significand is the digit run with trailing zeros stripped,
written as a single digit or digit point rest, followed by `e+` and the
exponent (one less than the digit count).  For example 45 followed by 29 zeros
renders as "4.5e+30".  (The arm for 0 is unreachable from `natToJsString`,
which only calls this at or above 10^21.) -/
def expNotation (t : Nat) : String :=
  let ds := Nat.toDigits 10 t
  let sig := (ds.reverse.dropWhile (· == '0')).reverse
  let e := "e+" ++ Nat.repr (ds.length - 1)
  match sig with
  | [] => "0"
  | [d] => String.mk [d] ++ e
  | d :: rest => String.mk [d] ++ "." ++ String.mk rest ++ e

/-- `Number.prototype.toString` for a nonnegative integer: the plain decimal
numeral below 10^21, and exponential notation at and above 10^21 (ECMAScript
Number::toString switches to exponential form once the value has more than 21
digits). -/
def natToJsString (t : Nat) : String :=
  if t < 10 ^ 21 then Nat.repr t else expNotation t

/-- `Number.prototype.toString` for the values this program prints: `"NaN"`
for NaN and, for integers, the sign followed by the decimal-or-exponential
rendering of the magnitude.  Every number this program converts to a string
is an integer or NaN (ceilings, remainders of integers, and their differences
and exact quotients by 100), so the rendering of non-integer rationals is
never exercised; the fallback here renders numerator and denominator. -/
def jsToString : JNum → String
  | .nan => "NaN"
  | .num q =>
    if q.den = 1 then
      if q.num < 0 then "-" ++ natToJsString q.num.natAbs
      else natToJsString q.num.toNat
    else toString q.num ++ "/" ++ toString q.den

/-- Wrap a parse result as a JS number (a failed parse is NaN). -/
def jnumOfParse : Option ℚ → JNum
  | none => .nan
  | some q => .num q

/-- The observable effect of one run of `calculate` on an error element:
left untouched, hidden (`d-none` added), or showing a message. -/
inductive ErrEffect where
  | untouched : ErrEffect
  | cleared : ErrEffect
  | shown (msg : String) : ErrEffect
deriving DecidableEq

/-- The effects on the three error elements of the `errorFields` object, in
source order: borrow, salary, repay percentage. -/
structure errorFields where
  borrowValidationFail : ErrEffect
  salaryValidationFail : ErrEffect
  repayValidationFail : ErrEffect
deriving DecidableEq

/-- The result object handed to the template, as in the `feeData` interface. -/
structure feeData where
  adminFeePounds : String
  adminFeePennies : String
  monthlyRepaymentPounds : String
  monthlyRepaymentPennies : String
  finalMonthPaymentPounds : String
  finalMonthPaymentPennies : String
  totalCostPounds : String
  totalCostPennies : String
  timeToRepay : String
deriving DecidableEq

/-- `amountCondition`: parse the field's contents with `parseInt` and compare
against the optional bounds (`none` models the ±Infinity defaults, i.e. no
bound).  A failed parse is NaN, which compares false against any bound. -/
def amountCondition (value : String) (minValue maxValue : Option Int) : Bool :=
  match jsParseInt value with
  | none => false
  | some amountToMeasure =>
    (match minValue with
     | none => true
     | some m => decide (m ≤ amountToMeasure)) &&
    (match maxValue with
     | none => true
     | some m => decide (amountToMeasure ≤ m))

/-- `runValidation`: when the condition holds, hide the error element and
return true; otherwise display the message on it and return false. -/
def runValidation (condition : Bool) (errorMsg : String) : Bool × ErrEffect :=
  if condition then (true, .cleared) else (false, .shown errorMsg)

/-- `rightTruncate`: prepend `length` zeros, then keep the last `length`
characters (JS `slice(-length)`; `slice(-0)` keeps the whole string). -/
def rightTruncate (input : JNum) (length : Nat) : String :=
  let stringToPad := (List.replicate length '0').asString ++ jsToString input
  if length = 0 then stringToPad
  else (stringToPad.toList.drop (stringToPad.toList.length - length)).asString

/-- `const amountToBorrow = 100 * parseFloat(borrowField.value)`. -/
def amountToBorrow (borrowValue : String) : JNum :=
  jmul (.num 100) (jnumOfParse (jsParseFloat borrowValue))

/-- `const expectedSalary = 100 * parseFloat(salaryField.value)`. -/
def expectedSalary (salaryValue : String) : JNum :=
  jmul (.num 100) (jnumOfParse (jsParseFloat salaryValue))

/-- `const monthlyPercRepay = parseFloat(repayPercField.value) / 100`. -/
def monthlyPercRepay (repayPercValue : String) : JNum :=
  jdiv (jnumOfParse (jsParseFloat repayPercValue)) (.num 100)

/-- `const adminFee = Math.ceil(0.05 * amountToBorrow)`. -/
def adminFee (borrowValue : String) : JNum :=
  jceil (jmul (.num (5 / 100 : ℚ)) (amountToBorrow borrowValue))

/-- `const totalCost = 800000 + (amountToBorrow > 640000 ? 50000 : 0)
                              + (amountToBorrow > 720000 ? 50000 : 0)`. -/
def totalCost (borrowValue : String) : JNum :=
  jadd (jadd (.num 800000)
      (if jgt (amountToBorrow borrowValue) 640000 then .num 50000 else .num 0))
    (if jgt (amountToBorrow borrowValue) 720000 then .num 50000 else .num 0)

/-- `const monthlyAmountRepaid = Math.ceil(monthlyPercRepay * expectedSalary)`. -/
def monthlyAmountRepaid (salaryValue repayPercValue : String) : JNum :=
  jceil (jmul (monthlyPercRepay repayPercValue) (expectedSalary salaryValue))

/-- `const repayInLastMonth = totalCost % monthlyAmountRepaid`. -/
def repayInLastMonth (borrowValue salaryValue repayPercValue : String) : JNum :=
  jmod (totalCost borrowValue) (monthlyAmountRepaid salaryValue repayPercValue)

/-- `const timeToRepay = 1 + Math.ceil((totalCost - repayInLastMonth) / monthlyAmountRepaid)`. -/
def timeToRepay (borrowValue salaryValue repayPercValue : String) : JNum :=
  jadd (.num 1)
    (jceil (jdiv (jsub (totalCost borrowValue) (repayInLastMonth borrowValue salaryValue repayPercValue))
      (monthlyAmountRepaid salaryValue repayPercValue)))

/-- `const adminFeePennies = adminFee % 100`. -/
def adminFeePennies (borrowValue : String) : JNum :=
  jmod (adminFee borrowValue) (.num 100)

/-- `const adminFeePounds = (adminFee - adminFeePennies) / 100`. -/
def adminFeePounds (borrowValue : String) : JNum :=
  jdiv (jsub (adminFee borrowValue) (adminFeePennies borrowValue)) (.num 100)

/-- `const monthlyRepaymentPennies = monthlyAmountRepaid % 100`. -/
def monthlyRepaymentPennies (salaryValue repayPercValue : String) : JNum :=
  jmod (monthlyAmountRepaid salaryValue repayPercValue) (.num 100)

/-- `const monthlyRepaymentPounds = (monthlyAmountRepaid - monthlyRepaymentPennies) / 100`. -/
def monthlyRepaymentPounds (salaryValue repayPercValue : String) : JNum :=
  jdiv (jsub (monthlyAmountRepaid salaryValue repayPercValue)
      (monthlyRepaymentPennies salaryValue repayPercValue))
    (.num 100)

/-- `const finalMonthPaymentPennies = repayInLastMonth % 100`. -/
def finalMonthPaymentPennies (borrowValue salaryValue repayPercValue : String) : JNum :=
  jmod (repayInLastMonth borrowValue salaryValue repayPercValue) (.num 100)

/-- `const finalMonthPaymentPounds = (repayInLastMonth - finalMonthPaymentPennies) / 100`. -/
def finalMonthPaymentPounds (borrowValue salaryValue repayPercValue : String) : JNum :=
  jdiv (jsub (repayInLastMonth borrowValue salaryValue repayPercValue)
      (finalMonthPaymentPennies borrowValue salaryValue repayPercValue))
    (.num 100)

/-- `const totalCostPennies = totalCost % 100`. -/
def totalCostPennies (borrowValue : String) : JNum :=
  jmod (totalCost borrowValue) (.num 100)

/-- `const totalCostPounds = (totalCost - totalCostPennies) / 100`. -/
def totalCostPounds (borrowValue : String) : JNum :=
  jdiv (jsub (totalCost borrowValue) (totalCostPennies borrowValue)) (.num 100)

/-- The object literal `calculate` returns on the all-checks-pass path. -/
def mkFeeData (borrowValue salaryValue repayPercValue : String) : feeData where
  adminFeePounds := jsToString (adminFeePounds borrowValue)
  adminFeePennies := rightTruncate (adminFeePennies borrowValue) 2
  monthlyRepaymentPounds := jsToString (monthlyRepaymentPounds salaryValue repayPercValue)
  monthlyRepaymentPennies := rightTruncate (monthlyRepaymentPennies salaryValue repayPercValue) 2
  finalMonthPaymentPounds := jsToString (finalMonthPaymentPounds borrowValue salaryValue repayPercValue)
  finalMonthPaymentPennies := rightTruncate (finalMonthPaymentPennies borrowValue salaryValue repayPercValue) 2
  totalCostPounds := jsToString (totalCostPounds borrowValue)
  totalCostPennies := rightTruncate (totalCostPennies borrowValue) 2
  timeToRepay := jsToString (timeToRepay borrowValue salaryValue repayPercValue)

/-- The message shown when the borrow-amount check fails. -/
def borrowErrorMsg : String := "Amount to borrow must be a number between 0 and 9000"

/-- The message shown when the salary check fails. -/
def salaryErrorMsg : String := "Expected monthly salary must be at least 0"

/-- The message shown when the repay-percentage check fails. -/
def repayErrorMsg : String := "Amount to repay must be between 10% and 100%"

/-- `calculate`: the guard is `runValidation(...) && runValidation(...) &&
runValidation(...)`, so each later `runValidation(amountCondition(...), ...)`
argument is evaluated only when every earlier one returned true (JS `&&`
short-circuits); an error element whose check is never reached is untouched.
On full success the `feeData` object is returned; otherwise the function
falls through and returns `undefined` (`none`). -/
def calculate (borrowValue salaryValue repayPercValue : String) :
    Option feeData × errorFields :=
  let r1 := runValidation (amountCondition borrowValue (some 0) (some 9000)) borrowErrorMsg
  if r1.1 then
    let r2 := runValidation (amountCondition salaryValue (some 0) none) salaryErrorMsg
    if r2.1 then
      let r3 := runValidation (amountCondition repayPercValue (some 10) (some 100)) repayErrorMsg
      if r3.1 then
        (some (mkFeeData borrowValue salaryValue repayPercValue), ⟨r1.2, r2.2, r3.2⟩)
      else (none, ⟨r1.2, r2.2, r3.2⟩)
    else (none, ⟨r1.2, r2.2, .untouched⟩)
  else (none, ⟨r1.2, .untouched, .untouched⟩)

/-- All three range checks hold (the condition under which `calculate`
produces a result). -/
def validationPasses (borrowValue salaryValue repayPercValue : String) : Bool :=
  amountCondition borrowValue (some 0) (some 9000) &&
    amountCondition salaryValue (some 0) none &&
      amountCondition repayPercValue (some 10) (some 100)

/-- Following the spec's wording: the two-character, zero-left-padded decimal
rendering of a penny value in [0, 99]. -/
def twoDigitString (p : Nat) : String :=
  ⟨[Nat.digitChar (p / 10), Nat.digitChar (p % 10)]⟩

/-- Following the spec's wording: a plain decimal integer string - nonempty,
digit characters only (hence no decimal point), and no leading zero except in
"0" itself. -/
def plainNumeral (f : String) : Prop :=
  f.toList ≠ [] ∧ (∀ c ∈ f.toList, c.isDigit = true) ∧ '.' ∉ f.toList ∧
    (f.toList.head? = some '0' → f = "0")

/-- C1 counterexample: with borrow "9001" and salary "-5" both invalid, the
claim predicts the salary check still runs and its failure is flagged; in the
code the `&&` guard short-circuits after the borrow failure, so the salary
error element is left untouched. -/
theorem C1_counterexample :
    amountCondition "9001" (some 0) (some 9000) = false ∧
    amountCondition "-5" (some 0) none = false ∧
    (calculate "9001" "-5" "50").2.salaryValidationFail = ErrEffect.untouched ∧
    (calculate "9001" "-5" "50").2.borrowValidationFail = ErrEffect.shown borrowErrorMsg := by
  decide

/-- C1 amended: validation short-circuits left to right; whenever the borrow
check fails, `calculate` reports only the borrow failure and leaves the
salary and repay-percentage error elements untouched, returning no result. -/
theorem C1_short_circuit (b s p : String)
    (h : amountCondition b (some 0) (some 9000) = false) :
    calculate b s p =
      (none, ⟨ErrEffect.shown borrowErrorMsg, ErrEffect.untouched, ErrEffect.untouched⟩) := by
  simp [calculate, runValidation, h]

/-- C1 witness: the short-circuit theorem applied at borrow "9001". -/
theorem C1_short_circuit_witness :
    amountCondition "9001" (some 0) (some 9000) = false ∧
    calculate "9001" "-5" "50" =
      (none, ⟨ErrEffect.shown borrowErrorMsg, ErrEffect.untouched, ErrEffect.untouched⟩) :=
  ⟨by decide, C1_short_circuit "9001" "-5" "50" (by decide)⟩

/-- C4 counterexample: the text "9000.9" passes the borrow check (parseInt
truncates it to 9000), although the rounded numeric value of the text is
9001, outside [0, 9000]; so "passes iff 0 ≤ round(b) ≤ 9000" fails. -/
theorem C4_counterexample :
    amountCondition "9000.9" (some 0) (some 9000) = true ∧
    jsParseFloat "9000.9" = some (90009 / 10 : ℚ) ∧
    round (90009 / 10 : ℚ) = 9001 ∧ ¬ ((9001 : ℤ) ≤ 9000) := by
  decide

/-- C4 amended: the borrow validation passes iff the truncating integer parse
of the entered text yields a value in [0, 9000]. -/
theorem C4_borrow_check_iff (v : String) :
    amountCondition v (some 0) (some 9000) = true ↔
      ∃ n : ℤ, jsParseInt v = some n ∧ 0 ≤ n ∧ n ≤ 9000 := by
  unfold amountCondition
  cases h : jsParseInt v <;> simp [h]

/-- C6: salary "0" passes all three validations, the computed monthly
repayment is 0, and `calculate` runs the remainder and division on that zero
divisor with no guard: the remainder is NaN, the months-to-repay is NaN, and
a result object is still returned with every error element cleared. -/
theorem C6_zero_monthly_repayment_unguarded :
    validationPasses "1000" "0" "50" = true ∧
    monthlyAmountRepaid "0" "50" = JNum.num 0 ∧
    repayInLastMonth "1000" "0" "50" = JNum.nan ∧
    timeToRepay "1000" "0" "50" = JNum.nan ∧
    (calculate "1000" "0" "50").1 = some (mkFeeData "1000" "0" "50") ∧
    (mkFeeData "1000" "0" "50").timeToRepay = "NaN" ∧
    (calculate "1000" "0" "50").2 = ⟨ErrEffect.cleared, ErrEffect.cleared, ErrEffect.cleared⟩ := by
  decide

/-- C7: when the entered text has no parseable number, every one of the three
range checks evaluates to false (never true, and the total function never
crashes). -/
theorem C7_nan_always_fails (v : String) (h : jsParseInt v = none) :
    amountCondition v (some 0) (some 9000) = false ∧
    amountCondition v (some 0) none = false ∧
    amountCondition v (some 10) (some 100) = false := by
  simp [amountCondition, h]

/-- C7 witness: the empty string parses to NaN and fails all three checks. -/
theorem C7_nan_always_fails_witness :
    jsParseInt "" = none ∧
    (amountCondition "" (some 0) (some 9000) = false ∧
      amountCondition "" (some 0) none = false ∧
      amountCondition "" (some 10) (some 100) = false) :=
  ⟨by decide, C7_nan_always_fails "" (by decide)⟩

/-- C9: with any salary and percentage that pass validation together with
borrow "7300", the inputs "6500" and "100" also pass, and the total costs are
900000, 850000 and 800000 pence, monotone across the thresholds. -/
theorem C9_surcharge_monotonicity (s p : String)
    (h : validationPasses "7300" s p = true) :
    validationPasses "6500" s p = true ∧ validationPasses "100" s p = true ∧
    totalCost "7300" = JNum.num 900000 ∧
    totalCost "6500" = JNum.num 850000 ∧
    totalCost "100" = JNum.num 800000 ∧
    (850000 : ℚ) ≤ 900000 ∧ (800000 : ℚ) ≤ 850000 := by
  simp only [validationPasses, Bool.and_eq_true] at h ⊢
  exact ⟨⟨⟨by decide, h.1.2⟩, h.2⟩, ⟨⟨by decide, h.1.2⟩, h.2⟩,
    by decide, by decide, by decide, by norm_num, by norm_num⟩

/-- C9 witness: the monotonicity theorem applied at salary "2000" and
percentage "50". -/
theorem C9_surcharge_monotonicity_witness :
    validationPasses "7300" "2000" "50" = true ∧
    (validationPasses "6500" "2000" "50" = true ∧ validationPasses "100" "2000" "50" = true ∧
      totalCost "7300" = JNum.num 900000 ∧
      totalCost "6500" = JNum.num 850000 ∧
      totalCost "100" = JNum.num 800000 ∧
      (850000 : ℚ) ≤ 900000 ∧ (800000 : ℚ) ≤ 850000) :=
  ⟨by decide, C9_surcharge_monotonicity "2000" "50" (by decide)⟩

/-- C10: "9000.99" passes the [0, 9000] borrow check (its truncating integer
parse is 9000), yet the pence amount the calculation uses is 100 times its
decimal parse, 900099 pence, exceeding the 900000 pence the validated cap
suggests. -/
theorem C10_validation_calculation_parse_mismatch :
    amountCondition "9000.99" (some 0) (some 9000) = true ∧
    jsParseInt "9000.99" = some 9000 ∧
    jsParseFloat "9000.99" = some (900099 / 100 : ℚ) ∧
    amountToBorrow "9000.99" = JNum.num 900099 ∧
    ¬ ((900099 : ℚ) ≤ 900000) := by
  decide

/-- A passed range check means `parseInt` succeeded on the field. -/
theorem amountCondition_parse (v : String) (lo hi : Option Int)
    (h : amountCondition v lo hi = true) : ∃ n : ℤ, jsParseInt v = some n := by
  unfold amountCondition at h
  cases hn : jsParseInt v
  · rw [hn] at h; cases h
  · exact ⟨_, rfl⟩

/-- When `parseInt` finds digits, so does `parseFloat` (both consume the same
whitespace-and-sign prelude; a successful hexadecimal parse starts with the
decimal digit 0). -/
theorem jsParseFloat_isSome_of_jsParseInt (s : String) (n : ℤ)
    (h : jsParseInt s = some n) : ∃ q : ℚ, jsParseFloat s = some q := by
  unfold jsParseInt at h
  unfold jsParseFloat
  generalize signAndRest s = sr at h ⊢
  obtain ⟨neg, cs1⟩ := sr
  simp only at h ⊢
  match cs1 with
  | [] => simp at h
  | c0 :: rest =>
    by_cases hd : c0.isDigit
    · simp only [List.takeWhile_cons, hd, if_true, List.isEmpty_cons, Bool.false_and,
        Bool.false_eq_true, if_false]
      exact ⟨_, rfl⟩
    · exfalso
      match rest with
      | [] =>
        simp at h
        exact hd h.1
      | c1 :: t =>
        by_cases hhex : (c0 = '0' && (c1 = 'x' || c1 = 'X')) = true
        · have : c0 = '0' := by
            rcases Bool.and_eq_true .. |>.mp hhex with ⟨h1, _⟩
            exact decide_eq_true_iff.mp h1
          subst this
          exact hd (by decide)
        · rw [Bool.not_eq_true] at hhex
          simp only [hhex] at h
          simp at h
          exact hd h.1

/-- The pence amount computed from a field whose decimal parse succeeded. -/
theorem amountToBorrow_num (b : String) (q : ℚ) (hq : jsParseFloat b = some q) :
    amountToBorrow b = JNum.num (100 * q) := by
  simp [amountToBorrow, jnumOfParse, hq, jmul]

/-- The total cost as a function of the parsed pence amount. -/
theorem totalCost_num (b : String) (q : ℚ) (hq : jsParseFloat b = some q) :
    totalCost b =
      JNum.num (800000 + (if (640000 : ℚ) < 100 * q then 50000 else 0)
        + (if (720000 : ℚ) < 100 * q then 50000 else 0)) := by
  unfold totalCost
  rw [amountToBorrow_num b q hq]
  by_cases h1 : (640000 : ℚ) < 100 * q <;> by_cases h2 : (720000 : ℚ) < 100 * q <;>
    simp [jgt, jadd, h1, h2]

/-- The total cost is one of the three integer tariffs, between 0 and
900000 pence. -/
theorem totalCost_int (b : String) (q : ℚ) (hq : jsParseFloat b = some q) :
    ∃ tc : ℤ, totalCost b = JNum.num ((tc : ℤ) : ℚ) ∧ 0 ≤ tc ∧ tc ≤ 900000 := by
  rw [totalCost_num b q hq]
  by_cases h1 : (640000 : ℚ) < 100 * q <;> by_cases h2 : (720000 : ℚ) < 100 * q
  · exact ⟨900000, by norm_num [h1, h2], by norm_num, by norm_num⟩
  · exact ⟨850000, by norm_num [h1, h2], by norm_num, by norm_num⟩
  · exact ⟨850000, by norm_num [h1, h2], by norm_num, by norm_num⟩
  · exact ⟨800000, by norm_num [h1, h2], by norm_num, by norm_num⟩

/-- Floor of a cast integer quotient is Euclidean division (positive divisor). -/
theorem floor_intCast_div (t m : ℤ) (hm : 0 < m) :
    ⌊(t : ℚ) / (m : ℚ)⌋ = t / m := by
  have hc : ((m.toNat : ℕ) : ℚ) = (m : ℚ) := by exact_mod_cast Int.toNat_of_nonneg hm.le
  have h1 := Rat.floor_intCast_div_natCast t m.toNat
  rw [hc] at h1
  rw [Int.toNat_of_nonneg hm.le] at h1
  exact h1

/-- JS truncation of a nonnegative integer quotient agrees with Euclidean
division. -/
theorem jtrunc_intCast_div (t m : ℤ) (ht : 0 ≤ t) (hm : 0 < m) :
    jtrunc ((t : ℚ) / (m : ℚ)) = t / m := by
  unfold jtrunc
  rw [if_pos (div_nonneg (by exact_mod_cast ht) (by exact_mod_cast hm.le)),
    floor_intCast_div t m hm]

/-- The JS remainder of a nonnegative integer by a positive integer is the
Euclidean remainder. -/
theorem jmod_intCast (t m : ℤ) (ht : 0 ≤ t) (hm : 0 < m) :
    jmod (JNum.num (t : ℚ)) (JNum.num (m : ℚ)) = JNum.num ((t % m : ℤ) : ℚ) := by
  simp only [jmod]
  rw [if_neg (by exact_mod_cast hm.ne'), jtrunc_intCast_div t m ht hm]
  congr 1
  rw [Int.emod_def]
  push_cast
  ring

/-- C2: for every input passing all three validations, the total cost is
800000 pence plus the two stacked surcharges determined by the parsed pence
amount: nothing at or below 640000, 50000 above 640000, and a further 50000
above 720000 (so 900000 above both thresholds). -/
theorem C2_totalCost_surcharges (b s p : String) (h : validationPasses b s p = true) :
    ∃ a : ℚ, amountToBorrow b = JNum.num a ∧
      totalCost b = JNum.num (800000 + (if 640000 < a then 50000 else 0)
        + (if 720000 < a then 50000 else 0)) ∧
      (a ≤ 640000 → totalCost b = JNum.num 800000) ∧
      (720000 < a → totalCost b = JNum.num 900000) := by
  have hb : amountCondition b (some 0) (some 9000) = true := by
    simp only [validationPasses, Bool.and_eq_true] at h
    exact h.1.1
  obtain ⟨n, hn⟩ := amountCondition_parse b _ _ hb
  obtain ⟨q, hq⟩ := jsParseFloat_isSome_of_jsParseInt b n hn
  refine ⟨100 * q, amountToBorrow_num b q hq, totalCost_num b q hq, ?_, ?_⟩
  · intro hle
    rw [totalCost_num b q hq, if_neg (by linarith), if_neg (by linarith)]
    norm_num
  · intro hgt
    rw [totalCost_num b q hq, if_pos (by linarith), if_pos hgt]
    norm_num

/-- C2 witness: the surcharge theorem applied at borrow 1000, salary 2000,
percentage 50. -/
theorem C2_totalCost_surcharges_witness :
    validationPasses "1000" "2000" "50" = true ∧
    (∃ a : ℚ, amountToBorrow "1000" = JNum.num a ∧
      totalCost "1000" = JNum.num (800000 + (if 640000 < a then 50000 else 0)
        + (if 720000 < a then 50000 else 0)) ∧
      (a ≤ 640000 → totalCost "1000" = JNum.num 800000) ∧
      (720000 < a → totalCost "1000" = JNum.num 900000)) :=
  ⟨by decide, C2_totalCost_surcharges "1000" "2000" "50" (by decide)⟩

/-- C5: for every input passing all three validations, the admin fee is
the ceiling of 0.05 times the parsed pence amount, exactly, and it is a
function of the borrow field only: changing the salary or percentage fields
leaves both admin-fee output fields unchanged. -/
theorem C5_adminFee_formula (b s p : String) (h : validationPasses b s p = true) :
    ∃ a : ℚ, amountToBorrow b = JNum.num a ∧
      adminFee b = JNum.num ((⌈(5 / 100 : ℚ) * a⌉ : ℤ) : ℚ) ∧
      ∀ s2 p2 : String,
        (mkFeeData b s2 p2).adminFeePounds = (mkFeeData b s p).adminFeePounds ∧
        (mkFeeData b s2 p2).adminFeePennies = (mkFeeData b s p).adminFeePennies := by
  have hb : amountCondition b (some 0) (some 9000) = true := by
    simp only [validationPasses, Bool.and_eq_true] at h
    exact h.1.1
  obtain ⟨n, hn⟩ := amountCondition_parse b _ _ hb
  obtain ⟨q, hq⟩ := jsParseFloat_isSome_of_jsParseInt b n hn
  refine ⟨100 * q, amountToBorrow_num b q hq, ?_, fun s2 p2 => ⟨rfl, rfl⟩⟩
  unfold adminFee
  rw [amountToBorrow_num b q hq]
  simp [jmul, jceil]

/-- C5 witness: the admin-fee theorem applied at borrow 1000, salary 2000,
percentage 50. -/
theorem C5_adminFee_formula_witness :
    validationPasses "1000" "2000" "50" = true ∧
    (∃ a : ℚ, amountToBorrow "1000" = JNum.num a ∧
      adminFee "1000" = JNum.num ((⌈(5 / 100 : ℚ) * a⌉ : ℤ) : ℚ) ∧
      ∀ s2 p2 : String,
        (mkFeeData "1000" s2 p2).adminFeePounds = (mkFeeData "1000" "2000" "50").adminFeePounds ∧
        (mkFeeData "1000" s2 p2).adminFeePennies = (mkFeeData "1000" "2000" "50").adminFeePennies) :=
  ⟨by decide, C5_adminFee_formula "1000" "2000" "50" (by decide)⟩

/-- C3: for every input passing all three validations whose computed monthly
repayment is a positive integer m, m is the ceiling of repayPercent/100 times
the monthly salary in pence, the final-month payment is totalCost mod m, and
the months to repay are 1 + ceil((totalCost - finalMonthPayment) / m); in
particular borrow 1000, salary 2000, percentage 50 give monthly repayment
100000 pence, final month 0, and 9 months. -/
theorem C3_repayment_formulas (b s p : String) (m : ℤ)
    (h : validationPasses b s p = true)
    (hm : monthlyAmountRepaid s p = JNum.num ((m : ℤ) : ℚ)) (hpos : 0 < m) :
    ∃ (S P : ℚ) (tc : ℤ),
      jsParseFloat s = some S ∧ jsParseFloat p = some P ∧
      m = ⌈(P / 100) * (100 * S)⌉ ∧
      totalCost b = JNum.num ((tc : ℤ) : ℚ) ∧ 0 ≤ tc ∧
      repayInLastMonth b s p = JNum.num ((tc % m : ℤ) : ℚ) ∧
      timeToRepay b s p =
        JNum.num ((1 + ⌈((tc - tc % m : ℤ) : ℚ) / ((m : ℤ) : ℚ)⌉ : ℤ) : ℚ) ∧
      (monthlyAmountRepaid "2000" "50" = JNum.num 100000 ∧
        repayInLastMonth "1000" "2000" "50" = JNum.num 0 ∧
        timeToRepay "1000" "2000" "50" = JNum.num 9) := by
  simp only [validationPasses, Bool.and_eq_true] at h
  obtain ⟨⟨hb, hs⟩, hp⟩ := h
  obtain ⟨nb, hnb⟩ := amountCondition_parse b _ _ hb
  obtain ⟨ns, hns⟩ := amountCondition_parse s _ _ hs
  obtain ⟨np, hnp⟩ := amountCondition_parse p _ _ hp
  obtain ⟨qb, hqb⟩ := jsParseFloat_isSome_of_jsParseInt b nb hnb
  obtain ⟨S, hS⟩ := jsParseFloat_isSome_of_jsParseInt s ns hns
  obtain ⟨P, hP⟩ := jsParseFloat_isSome_of_jsParseInt p np hnp
  obtain ⟨tc, htc, htc0, -⟩ := totalCost_int b qb hqb
  have hmon : monthlyAmountRepaid s p = JNum.num ((⌈(P / 100) * (100 * S)⌉ : ℤ) : ℚ) := by
    unfold monthlyAmountRepaid monthlyPercRepay expectedSalary
    simp [jnumOfParse, hS, hP, jdiv, jmul, jceil]
  have hmval : m = ⌈(P / 100) * (100 * S)⌉ := by
    have h2 := (hm.symm.trans hmon)
    exact_mod_cast JNum.num.inj h2
  have hrepay : repayInLastMonth b s p = JNum.num ((tc % m : ℤ) : ℚ) := by
    unfold repayInLastMonth
    rw [htc, hm]
    exact jmod_intCast tc m htc0 hpos
  have hm0 : ((m : ℤ) : ℚ) ≠ 0 := by exact_mod_cast hpos.ne'
  have htime : timeToRepay b s p =
      JNum.num ((1 + ⌈((tc - tc % m : ℤ) : ℚ) / ((m : ℤ) : ℚ)⌉ : ℤ) : ℚ) := by
    unfold timeToRepay
    rw [htc, hm, hrepay]
    simp only [jsub]
    rw [show ((tc : ℤ) : ℚ) - ((tc % m : ℤ) : ℚ) = ((tc - tc % m : ℤ) : ℚ) by push_cast; ring]
    simp only [jdiv]
    rw [if_neg hm0]
    simp only [jceil, jadd]
    congr 1
    push_cast
    ring
  exact ⟨S, P, tc, hS, hP, hmval, htc, htc0, hrepay, htime, by decide, by decide, by decide⟩

/-- C3 witness: the repayment theorem applied at borrow 1000, salary 2000,
percentage 50, with monthly repayment 100000. -/
theorem C3_repayment_formulas_witness :
    validationPasses "1000" "2000" "50" = true ∧
    monthlyAmountRepaid "2000" "50" = JNum.num ((100000 : ℤ) : ℚ) ∧
    (0 : ℤ) < 100000 ∧
    (∃ (S P : ℚ) (tc : ℤ),
      jsParseFloat "2000" = some S ∧ jsParseFloat "50" = some P ∧
      (100000 : ℤ) = ⌈(P / 100) * (100 * S)⌉ ∧
      totalCost "1000" = JNum.num ((tc : ℤ) : ℚ) ∧ 0 ≤ tc ∧
      repayInLastMonth "1000" "2000" "50" = JNum.num ((tc % 100000 : ℤ) : ℚ) ∧
      timeToRepay "1000" "2000" "50" =
        JNum.num ((1 + ⌈((tc - tc % 100000 : ℤ) : ℚ) / ((100000 : ℤ) : ℚ)⌉ : ℤ) : ℚ) ∧
      (monthlyAmountRepaid "2000" "50" = JNum.num 100000 ∧
        repayInLastMonth "1000" "2000" "50" = JNum.num 0 ∧
        timeToRepay "1000" "2000" "50" = JNum.num 9)) :=
  ⟨by decide, by decide, by decide,
    C3_repayment_formulas "1000" "2000" "50" 100000 (by decide) (by decide) (by decide)⟩

/-- Every digit character below base 10 is a digit. -/
theorem digitChar_isDigit : ∀ k, k < 10 → (Nat.digitChar k).isDigit = true := by
  decide

/-- Only the digit 0 renders as the character '0'. -/
theorem digitChar_eq_zero : ∀ k, k < 10 → Nat.digitChar k = '0' → k = 0 := by
  decide

/-- With enough fuel, `Nat.toDigitsCore` at base 10 prepends a nonempty run
of digit characters to its tail argument, and that run starts with the
character '0' only when the rendered number is 0. -/
theorem toDigitsCore_run (f : Nat) : ∀ (k : Nat) (tail : List Char), k < f →
    ∃ run : List Char, run ≠ [] ∧ (run.head? = some '0' → k = 0) ∧
      (∀ c ∈ run, ∃ d, d < 10 ∧ c = Nat.digitChar d) ∧
      Nat.toDigitsCore 10 f k tail = run ++ tail := by
  induction f with
  | zero => exact fun k tail hk => absurd hk (Nat.not_lt_zero k)
  | succ f ih =>
    intro k tail hk
    have hdig : k % 10 < 10 := Nat.mod_lt _ (by norm_num)
    by_cases hq : k / 10 = 0
    · refine ⟨[Nat.digitChar (k % 10)], by simp, ?_, ?_, by simp [Nat.toDigitsCore, hq]⟩
      · intro h0
        simp only [List.head?_cons, Option.some.injEq] at h0
        have := digitChar_eq_zero (k % 10) hdig h0
        omega
      · intro c hc
        simp only [List.mem_singleton] at hc
        exact ⟨k % 10, hdig, hc⟩
    · obtain ⟨run, hne, hzero, hdigs, heq⟩ :=
        ih (k / 10) (Nat.digitChar (k % 10) :: tail) (by omega)
      refine ⟨run ++ [Nat.digitChar (k % 10)], by simp, ?_, ?_, ?_⟩
      · intro h0
        exfalso
        apply hq
        apply hzero
        cases run with
        | nil => exact absurd rfl hne
        | cons a l => simpa using h0
      · intro c hc
        rcases List.mem_append.mp hc with hc | hc
        · exact hdigs c hc
        · simp only [List.mem_singleton] at hc
          exact ⟨k % 10, hdig, hc⟩
      · rw [List.append_assoc, List.singleton_append, ← heq]
        simp [Nat.toDigitsCore, hq]

/-- The decimal rendering `Nat.repr` is a nonempty string of digit characters
with no decimal point and no leading zero except for "0" itself. -/
theorem plainNumeral_repr (n : ℕ) : plainNumeral (Nat.repr n) := by
  obtain ⟨ds, hne, hz, hdig, hds⟩ := toDigitsCore_run (n + 1) n [] (Nat.lt_succ_self n)
  have htl : (Nat.repr n).toList = ds := by
    show (Nat.toDigits 10 n).asString.toList = ds
    rw [Nat.toDigits, hds]
    simp [List.asString]
  refine ⟨?_, ?_, ?_, ?_⟩
  · rw [htl]; exact hne
  · rw [htl]
    intro c hc
    obtain ⟨k, hk, rfl⟩ := hdig c hc
    exact digitChar_isDigit k hk
  · rw [htl]
    intro hdot
    obtain ⟨k, hk, hck⟩ := hdig '.' hdot
    have : ('.' : Char).isDigit = true := hck ▸ digitChar_isDigit k hk
    exact absurd this (by decide)
  · rw [htl]
    intro hh
    have hn0 := hz hh
    subst hn0
    rfl

/-- `jsToString` of a nonnegative integer value below the exponential
threshold 10^21 is its plain decimal numeral. -/
theorem jsToString_nonneg (t : ℤ) (ht : 0 ≤ t) (hlt : t < 10 ^ 21) :
    jsToString (JNum.num ((t : ℤ) : ℚ)) = Nat.repr t.toNat := by
  have hpZ : ((10 : ℤ) ^ 21) = 1000000000000000000000 := by norm_num
  have hpN : ((10 : ℕ) ^ 21) = 1000000000000000000000 := by norm_num
  simp only [jsToString]
  rw [if_pos (Rat.den_intCast t), Rat.num_intCast, if_neg (by omega)]
  unfold natToJsString
  rw [if_pos (by omega)]

/-- For 0 ≤ k ≤ 99, padding with zeros and keeping the last two characters
yields the zero-left-padded two-digit rendering. -/
theorem rightTruncate_lt_100 : ∀ k : Fin 100,
    rightTruncate (JNum.num (((k : ℕ) : ℤ) : ℚ)) 2 = twoDigitString (k : ℕ) := by
  decide

/-- Splitting a nonnegative integer pence amount below the exponential
threshold 10^21 into its last-two-digit penny field and its pound field
yields a two-digit rendering and a plain numeral respectively. -/
theorem field_format (t : ℤ) (ht : 0 ≤ t) (hlt : t < 10 ^ 21) :
    (∃ pn : ℕ, pn ≤ 99 ∧
      rightTruncate (jmod (JNum.num ((t : ℤ) : ℚ)) (JNum.num 100)) 2 = twoDigitString pn) ∧
    plainNumeral (jsToString (jdiv
      (jsub (JNum.num ((t : ℤ) : ℚ)) (jmod (JNum.num ((t : ℤ) : ℚ)) (JNum.num 100)))
      (JNum.num 100))) := by
  have h100 : (0 : ℤ) < 100 := by norm_num
  have hmod : jmod (JNum.num ((t : ℤ) : ℚ)) (JNum.num 100) = JNum.num ((t % 100 : ℤ) : ℚ) := by
    rw [show (100 : ℚ) = ((100 : ℤ) : ℚ) by norm_num]
    exact jmod_intCast t 100 ht h100
  have hr0 : 0 ≤ t % 100 := Int.emod_nonneg t (by norm_num)
  have hr99 : t % 100 < 100 := Int.emod_lt_of_pos t h100
  constructor
  · refine ⟨(t % 100).toNat, by omega, ?_⟩
    rw [hmod]
    have hlt : (t % 100).toNat < 100 := by omega
    have hcast : ((t % 100 : ℤ) : ℚ) = ((((t % 100).toNat : ℕ) : ℤ) : ℚ) := by
      rw [Int.toNat_of_nonneg hr0]
    rw [hcast]
    exact rightTruncate_lt_100 ⟨(t % 100).toNat, hlt⟩
  · rw [hmod]
    have hsub : jsub (JNum.num ((t : ℤ) : ℚ)) (JNum.num ((t % 100 : ℤ) : ℚ)) =
        JNum.num ((100 * (t / 100) : ℤ) : ℚ) := by
      simp only [jsub]
      congr 1
      rw [Int.emod_def]
      push_cast
      ring
    rw [hsub]
    have hdiv : jdiv (JNum.num ((100 * (t / 100) : ℤ) : ℚ)) (JNum.num 100) =
        JNum.num ((t / 100 : ℤ) : ℚ) := by
      simp only [jdiv]
      rw [if_neg (by norm_num)]
      congr 1
      push_cast
      field_simp
    rw [hdiv, jsToString_nonneg (t / 100) (Int.ediv_nonneg ht h100.le) (by omega)]
    exact plainNumeral_repr _

/-- C8 counterexample, two failure modes.  First, the borrow text "-0.7"
passes validation (its integer parse is -0), the monthly repayment is
100000 > 0, yet the admin-fee penny field is the string "-3", which is not
the two-digit zero-padded rendering of any value in [0, 99].  Second, the
salary text "9e30" passes validation (its integer parse is 9), the monthly
repayment is the positive integer 45 * 10^31 pence, yet its pound field is
rendered in JS exponential notation as "4.5e+30", which contains a decimal
point. -/
theorem C8_counterexample :
    validationPasses "-0.7" "2000" "50" = true ∧
    monthlyAmountRepaid "2000" "50" = JNum.num 100000 ∧
    (mkFeeData "-0.7" "2000" "50").adminFeePennies = "-3" ∧
    (¬ ∃ pn : Fin 100, twoDigitString (pn : ℕ) = "-3") ∧
    validationPasses "1000" "9e30" "50" = true ∧
    monthlyAmountRepaid "9e30" "50" = JNum.num ((45 * 10 ^ 31 : ℤ) : ℚ) ∧
    (mkFeeData "1000" "9e30" "50").monthlyRepaymentPounds = "4.5e+30" ∧
    '.' ∈ ((mkFeeData "1000" "9e30" "50").monthlyRepaymentPounds).toList := by
  refine ⟨by decide, by decide, by decide, by decide, by decide, by decide, by decide, by decide⟩

/-- C8 amended: for every input passing all three validations whose computed
monthly repayment is a positive integer below 10^21 pence and whose borrow
text parses to a decimal value within the validated range [0, 9000] - which
validation alone guarantees neither: "-0.7" passes via parseInt -0 and makes
the admin fee negative, and exponent forms such as salary "9e30" pass via
parseInt 9 and push a pound amount to 10^21 or beyond, where JS switches to
exponential notation (see the counterexample) - each penny field is the
two-character zero-left-padded rendering of a value in [0, 99] and each pound
field is a plain decimal numeral with no decimal point and no leading zero
except "0" itself. -/
theorem C8_output_format (b s p : String) (m : ℤ)
    (h : validationPasses b s p = true)
    (hm : monthlyAmountRepaid s p = JNum.num ((m : ℤ) : ℚ)) (hpos : 0 < m)
    (hmhi : m < 10 ^ 21)
    (hb0 : ∀ q : ℚ, jsParseFloat b = some q → 0 ≤ q ∧ q ≤ 9000) :
    (∀ k : ℕ, (twoDigitString k).length = 2) ∧
    (∃ pn : ℕ, pn ≤ 99 ∧ (mkFeeData b s p).adminFeePennies = twoDigitString pn) ∧
    (∃ pn : ℕ, pn ≤ 99 ∧ (mkFeeData b s p).monthlyRepaymentPennies = twoDigitString pn) ∧
    (∃ pn : ℕ, pn ≤ 99 ∧ (mkFeeData b s p).finalMonthPaymentPennies = twoDigitString pn) ∧
    (∃ pn : ℕ, pn ≤ 99 ∧ (mkFeeData b s p).totalCostPennies = twoDigitString pn) ∧
    plainNumeral (mkFeeData b s p).adminFeePounds ∧
    plainNumeral (mkFeeData b s p).monthlyRepaymentPounds ∧
    plainNumeral (mkFeeData b s p).finalMonthPaymentPounds ∧
    plainNumeral (mkFeeData b s p).totalCostPounds := by
  have hb : amountCondition b (some 0) (some 9000) = true := by
    simp only [validationPasses, Bool.and_eq_true] at h
    exact h.1.1
  obtain ⟨nb, hnb⟩ := amountCondition_parse b _ _ hb
  obtain ⟨qb, hqb⟩ := jsParseFloat_isSome_of_jsParseInt b nb hnb
  obtain ⟨hqb0, hqb9⟩ := hb0 qb hqb
  have hadmin : adminFee b = JNum.num ((⌈(5 / 100 : ℚ) * (100 * qb)⌉ : ℤ) : ℚ) := by
    unfold adminFee
    rw [amountToBorrow_num b qb hqb]
    simp [jmul, jceil]
  have hta0 : (0 : ℤ) ≤ ⌈(5 / 100 : ℚ) * (100 * qb)⌉ :=
    Int.ceil_nonneg (mul_nonneg (by norm_num) (mul_nonneg (by norm_num) hqb0))
  have hta45 : ⌈(5 / 100 : ℚ) * (100 * qb)⌉ ≤ 45000 :=
    Int.ceil_le.mpr (by push_cast; linarith)
  have hbig : (900000 : ℤ) < 10 ^ 21 := by norm_num
  obtain ⟨tc, htc, htc0, htc9⟩ := totalCost_int b qb hqb
  have hfinal : repayInLastMonth b s p = JNum.num ((tc % m : ℤ) : ℚ) := by
    unfold repayInLastMonth
    rw [htc, hm]
    exact jmod_intCast tc m htc0 hpos
  have hfin0 : 0 ≤ tc % m := Int.emod_nonneg tc hpos.ne'
  have hfinle : tc % m ≤ tc := by
    have h1 := Int.emod_def tc m
    have h2 : 0 ≤ m * (tc / m) := mul_nonneg hpos.le (Int.ediv_nonneg htc0 hpos.le)
    linarith
  obtain ⟨hA1, hA2⟩ := field_format _ hta0 (by linarith)
  obtain ⟨hM1, hM2⟩ := field_format m hpos.le hmhi
  obtain ⟨hF1, hF2⟩ := field_format _ hfin0 (by linarith)
  obtain ⟨hT1, hT2⟩ := field_format tc htc0 (by linarith)
  refine ⟨fun k => rfl, ?_, ?_, ?_, ?_, ?_, ?_, ?_, ?_⟩
  · obtain ⟨pn, hpn, he⟩ := hA1
    refine ⟨pn, hpn, ?_⟩
    show rightTruncate (adminFeePennies b) 2 = _
    unfold adminFeePennies
    rw [hadmin]
    exact he
  · obtain ⟨pn, hpn, he⟩ := hM1
    refine ⟨pn, hpn, ?_⟩
    show rightTruncate (monthlyRepaymentPennies s p) 2 = _
    unfold monthlyRepaymentPennies
    rw [hm]
    exact he
  · obtain ⟨pn, hpn, he⟩ := hF1
    refine ⟨pn, hpn, ?_⟩
    show rightTruncate (finalMonthPaymentPennies b s p) 2 = _
    unfold finalMonthPaymentPennies
    rw [hfinal]
    exact he
  · obtain ⟨pn, hpn, he⟩ := hT1
    refine ⟨pn, hpn, ?_⟩
    show rightTruncate (totalCostPennies b) 2 = _
    unfold totalCostPennies
    rw [htc]
    exact he
  · show plainNumeral (jsToString (adminFeePounds b))
    unfold adminFeePounds adminFeePennies
    rw [hadmin]
    exact hA2
  · show plainNumeral (jsToString (monthlyRepaymentPounds s p))
    unfold monthlyRepaymentPounds monthlyRepaymentPennies
    rw [hm]
    exact hM2
  · show plainNumeral (jsToString (finalMonthPaymentPounds b s p))
    unfold finalMonthPaymentPounds finalMonthPaymentPennies
    rw [hfinal]
    exact hF2
  · show plainNumeral (jsToString (totalCostPounds b))
    unfold totalCostPounds totalCostPennies
    rw [htc]
    exact hT2

/-- C8 witness: the format theorem applied at borrow 1000, salary 2000,
percentage 50, with monthly repayment 100000. -/
theorem C8_output_format_witness :
    validationPasses "1000" "2000" "50" = true ∧
    monthlyAmountRepaid "2000" "50" = JNum.num ((100000 : ℤ) : ℚ) ∧
    (0 : ℤ) < 100000 ∧ (100000 : ℤ) < 10 ^ 21 ∧
    ((∀ k : ℕ, (twoDigitString k).length = 2) ∧
     (∃ pn : ℕ, pn ≤ 99 ∧ (mkFeeData "1000" "2000" "50").adminFeePennies = twoDigitString pn) ∧
     (∃ pn : ℕ, pn ≤ 99 ∧ (mkFeeData "1000" "2000" "50").monthlyRepaymentPennies = twoDigitString pn) ∧
     (∃ pn : ℕ, pn ≤ 99 ∧ (mkFeeData "1000" "2000" "50").finalMonthPaymentPennies = twoDigitString pn) ∧
     (∃ pn : ℕ, pn ≤ 99 ∧ (mkFeeData "1000" "2000" "50").totalCostPennies = twoDigitString pn) ∧
     plainNumeral (mkFeeData "1000" "2000" "50").adminFeePounds ∧
     plainNumeral (mkFeeData "1000" "2000" "50").monthlyRepaymentPounds ∧
     plainNumeral (mkFeeData "1000" "2000" "50").finalMonthPaymentPounds ∧
     plainNumeral (mkFeeData "1000" "2000" "50").totalCostPounds) :=
  ⟨by decide, by decide, by decide, by norm_num,
    C8_output_format "1000" "2000" "50" 100000 (by decide) (by decide) (by decide)
      (by norm_num)
      (by
        intro q hq
        rw [show jsParseFloat "1000" = some (1000 : ℚ) by decide] at hq
        rw [← Option.some.inj hq]
        norm_num)⟩
